import Mathlib

/-!
Verification development for the hpkv-io rest-client repository.

The repository holds three Python clients for the HPKV REST API:
 - the typed SDK client src/sdk/python/src/hpkv_rest_client/hpkv_client.py
   (per-status exception subclasses, response-shape validation),
 - the simple blocking client src/python/hpkv_client.py
   (single exception class, no shape validation),
 - the simple non-blocking client src/python/async_hpkv_client.py
   (single exception class, no shape validation, lazily created aiohttp
   session, content-length guarded error-body decoding).

Each Python function touched by the claims is shallowly embedded below as an
executable Lean definition; decoded JSON documents are modelled by an
inductive type, and raising an exception is modelled by an outcome type.
-/

namespace HPKV

/-- Decoded JSON document, as produced by json.loads.  Numbers are modelled
as integers, which covers every value the claims touch. -/
inductive Json where
  | null
  | bool (b : Bool)
  | num (n : Int)
  | str (s : String)
  | arr (elems : List Json)
  | obj (fields : List (String × Json))
  deriving BEq

/-- Python truthiness of a decoded JSON value: None, False, 0, empty string,
empty list and empty dict are falsy; everything else is truthy. -/
def Json.truthy : Json → Bool
  | .null => false
  | .bool b => b
  | .num n => n != 0
  | .str s => s != ""
  | .arr elems => !elems.isEmpty
  | .obj fields => !fields.isEmpty

/-- Whether the decoded value is a Python dict (isinstance(x, dict)). -/
def Json.isDict : Json → Bool
  | .obj _ => true
  | _ => false

/-- Dict key membership: x in d for a dict d (used by the per-operation
shape checks, which guard with isinstance first). -/
def Json.hasKey (j : Json) (k : String) : Bool :=
  match j with
  | .obj fields => (fields.lookup k).isSome
  | _ => false

/-- Whether the character list starts with the given pattern. -/
def charsStartWith : List Char → List Char → Bool
  | _, [] => true
  | [], _ :: _ => false
  | c :: cs, p :: ps => c == p && charsStartWith cs ps

/-- Whether the pattern occurs as a contiguous run of the character list. -/
def charsContain : List Char → List Char → Bool
  | [], pat => pat.isEmpty
  | c :: cs, pat => charsStartWith (c :: cs) pat || charsContain cs pat

/-- Substring test, modelling the Python expression sub in s on strings. -/
def strContains (s pat : String) : Bool :=
  charsContain s.toList pat.toList

/-- Result of a Python expression that can raise TypeError (or KeyError):
either a value or an uncaught runtime type failure. -/
inductive PyRes (α : Type) where
  | val (a : α)
  | typeError
  deriving BEq

/-- Python equality of a decoded JSON value with a string: true only for an
equal string, since str compares unequal to every other decoded type. -/
def Json.eqStr (j : Json) (k : String) : Bool :=
  match j with
  | .str s => s == k
  | _ => false

/-- The Python membership test k in x on a decoded JSON value x: key lookup
for a dict, element equality for a list, substring test for a string, and a
TypeError for None, booleans and numbers, which are not iterable. -/
def pyContains (j : Json) (k : String) : PyRes Bool :=
  match j with
  | .obj fields => .val ((fields.lookup k).isSome)
  | .arr elems => .val (elems.any fun e => e.eqStr k)
  | .str s => .val (strContains s k)
  | .null | .bool _ | .num _ => .typeError

/-- The Python subscript x[k] with a string key: field lookup for a dict,
and a TypeError for every other decoded value (string and list subscripts
require integers; a missing dict key would be a KeyError, collapsed here
with TypeError into the single crash marker). -/
def pyIndex (j : Json) (k : String) : PyRes Json :=
  match j with
  | .obj fields =>
    match fields.lookup k with
    | some v => .val v
    | none => .typeError
  | _ => .typeError

/-- The raw HTTP response body as seen by the client: empty text, text that
is not valid JSON, or text decoding to a JSON document. -/
inductive RawBody where
  | empty
  | garbled
  | wellFormed (j : Json)
  deriving BEq

/-- Response seen by the blocking clients (requests library). -/
structure SyncResponse where
  status : Nat
  body : RawBody
  deriving BEq

/-- Response seen by the non-blocking client (aiohttp library), which also
exposes the Content-Length header when the transport knows it. -/
structure AsyncResponse where
  status : Nat
  contentLength : Option Nat
  body : RawBody
  deriving BEq

/-- Tolerant decode used on the error path of the blocking clients:
if response.text is non-empty, try response.json() and swallow
json.JSONDecodeError; absent or undecodable bodies give no data. -/
def decodeBody : RawBody → Option Json
  | .wellFormed j => some j
  | _ => none

/-- Result of the strict response.json() call on the success path, where a
decode failure propagates to the caller. -/
inductive DecodeRes where
  | ok (j : Json)
  | decodeError
  deriving BEq

/-- Strict decode on the success path: response.json() raises on empty or
undecodable text. -/
def strictDecode : RawBody → DecodeRes
  | .wellFormed j => .ok j
  | _ => .decodeError

/-- Error-path decode of the non-blocking client: the body is read only when
response.content_length is a known positive number (the Python guard
response.content_length and response.content_length > 0). -/
def asyncErrData (r : AsyncResponse) : Option Json :=
  match r.contentLength with
  | some n => if 0 < n then decodeBody r.body else none
  | none => none

/-- Exception variant of the typed SDK hierarchy; the simple clients only
ever produce the generic variant (their single HPKVException class). -/
inductive ErrKind where
  | badRequest
  | unauthorized
  | forbidden
  | notFound
  | conflict
  | rateLimited
  | internal
  | generic
  deriving BEq, DecidableEq

/-- Data carried by a raised HPKV exception: variant, message (an arbitrary
decoded JSON value, since error_data["error"] need not be a string), the
HTTP status code, and the decoded error body when present. -/
structure HPKVError where
  kind : ErrKind
  message : Json
  status : Nat
  body : Option Json
  deriving BEq

/-- Observable outcome of one client operation applied to one response:
a returned value, a raised HPKV exception, an uncaught json decode error
from the success path, or an uncaught TypeError from the error path. -/
inductive OpOutcome where
  | ok (result : Json)
  | err (e : HPKVError)
  | decodeError
  | typeError
  deriving BEq

/-- Whether the outcome is a raised HPKV exception. -/
def OpOutcome.isRaised : OpOutcome → Bool
  | .err _ => true
  | _ => false

/-- Result of deriving the exception message from the decoded error body. -/
inductive MsgRes where
  | msg (m : Json)
  | typeError
  deriving BEq

/-- Whether message derivation produced a message (rather than crashing). -/
def MsgRes.isMsg : MsgRes → Bool
  | .msg _ => true
  | .typeError => false

/-- The fallback message f-string, "HTTP error " followed by the status. -/
def genericMsg (status : Nat) : Json :=
  .str ("HTTP error " ++ toString status)

/-- Message derivation shared verbatim by all three _handle_errors bodies:
if error_data and "error" in error_data use error_data["error"], otherwise
the generic message.  The membership test and the subscript can raise
TypeError on truthy non-dict bodies. -/
def deriveMsg (status : Nat) (errData : Option Json) : MsgRes :=
  match errData with
  | none => .msg (genericMsg status)
  | some d =>
    if d.truthy then
      match pyContains d "error" with
      | .typeError => .typeError
      | .val true =>
        match pyIndex d "error" with
        | .val v => .msg v
        | .typeError => .typeError
      | .val false => .msg (genericMsg status)
    else .msg (genericMsg status)

/-- Status-code classification of the typed SDK client _handle_errors. -/
def classifyTyped (s : Nat) : ErrKind :=
  if s = 400 then .badRequest
  else if s = 401 then .unauthorized
  else if s = 403 then .forbidden
  else if s = 404 then .notFound
  else if s = 409 then .conflict
  else if s = 429 then .rateLimited
  else if 500 ≤ s then .internal
  else .generic

/-- The simple clients raise their one HPKVException class for every failing
status; modelled as the constant generic variant. -/
def classifySimple (_ : Nat) : ErrKind := .generic

/-- Raise the classified exception carrying the derived message, the status
and the decoded error body, or crash if message derivation crashed. -/
def raiseClassified (classify : Nat → ErrKind) (status : Nat)
    (errData : Option Json) : OpOutcome :=
  match deriveMsg status errData with
  | .typeError => .typeError
  | .msg m => .err ⟨classify status, m, status, errData⟩

/-- The requests library response.ok property: raise_for_status flags
4xx and 5xx, so ok is status < 400 or status ≥ 600. -/
def requestsOk (s : Nat) : Bool :=
  decide (s < 400) || decide (600 ≤ s)

/-- _handle_errors of the blocking clients: nothing on an ok status, and a
raised classified exception (or crash) otherwise. -/
def syncHandleErrors (classify : Nat → ErrKind) (r : SyncResponse) :
    Option OpOutcome :=
  if requestsOk r.status then none
  else some (raiseClassified classify r.status (decodeBody r.body))

/-- The HPKVInternalError raised by the typed SDK client when a success
response fails its shape check: fixed message, status code and the decoded
body as response_data. -/
def formatError (status : Nat) (body : Json) : HPKVError :=
  ⟨.internal, .str "Invalid response format from server", status, some body⟩

/-- Typed SDK set: _handle_errors, then response.json(), then the check
not isinstance(result, dict) or "success" not in result. -/
def setHandle (r : SyncResponse) : OpOutcome :=
  match syncHandleErrors classifyTyped r with
  | some out => out
  | none =>
    match strictDecode r.body with
    | .decodeError => .decodeError
    | .ok result =>
      if !result.isDict || !(result.hasKey "success") then
        .err (formatError r.status result)
      else .ok result

/-- Typed SDK get: required fields key and value. -/
def getHandle (r : SyncResponse) : OpOutcome :=
  match syncHandleErrors classifyTyped r with
  | some out => out
  | none =>
    match strictDecode r.body with
    | .decodeError => .decodeError
    | .ok result =>
      if !result.isDict || !(result.hasKey "key") || !(result.hasKey "value") then
        .err (formatError r.status result)
      else .ok result

/-- Typed SDK delete: required field success. -/
def deleteHandle (r : SyncResponse) : OpOutcome :=
  match syncHandleErrors classifyTyped r with
  | some out => out
  | none =>
    match strictDecode r.body with
    | .decodeError => .decodeError
    | .ok result =>
      if !result.isDict || !(result.hasKey "success") then
        .err (formatError r.status result)
      else .ok result

/-- Typed SDK increment: required field result. -/
def incrementHandle (r : SyncResponse) : OpOutcome :=
  match syncHandleErrors classifyTyped r with
  | some out => out
  | none =>
    match strictDecode r.body with
    | .decodeError => .decodeError
    | .ok result =>
      if !result.isDict || !(result.hasKey "result") then
        .err (formatError r.status result)
      else .ok result

/-- Typed SDK query: required fields records and count. -/
def queryHandle (r : SyncResponse) : OpOutcome :=
  match syncHandleErrors classifyTyped r with
  | some out => out
  | none =>
    match strictDecode r.body with
    | .decodeError => .decodeError
    | .ok result =>
      if !result.isDict || !(result.hasKey "records") || !(result.hasKey "count") then
        .err (formatError r.status result)
      else .ok result

/-- The five operations exposed by every client. -/
inductive OpKind where
  | set
  | get
  | delete
  | increment
  | query
  deriving BEq, DecidableEq

/-- Dispatch to the typed SDK response pipeline of the given operation. -/
def typedHandle : OpKind → SyncResponse → OpOutcome
  | .set => setHandle
  | .get => getHandle
  | .delete => deleteHandle
  | .increment => incrementHandle
  | .query => queryHandle

/-- Required-fields predicate of the spec table, one row per operation. -/
def requiredOk : OpKind → Json → Bool
  | .set, j => j.isDict && j.hasKey "success"
  | .get, j => j.isDict && j.hasKey "key" && j.hasKey "value"
  | .delete, j => j.isDict && j.hasKey "success"
  | .increment, j => j.isDict && j.hasKey "result"
  | .query, j => j.isDict && j.hasKey "records" && j.hasKey "count"

/-- Response pipeline of the simple blocking client, identical for all five
operations: _handle_errors, then return response.json() with no shape
validation. -/
def simpleHandle (r : SyncResponse) : OpOutcome :=
  match syncHandleErrors classifySimple r with
  | some out => out
  | none =>
    match strictDecode r.body with
    | .decodeError => .decodeError
    | .ok result => .ok result

/-- Response pipeline of the simple non-blocking client, identical for all
five operations: _handle_errors fires when response.status >= 400 (decoding
the body only under the content-length guard), otherwise the body is
returned via response.json() with no shape validation. -/
def asyncHandle (r : AsyncResponse) : OpOutcome :=
  if 400 ≤ r.status then
    raiseClassified classifySimple r.status (asyncErrData r)
  else
    match strictDecode r.body with
    | .decodeError => .decodeError
    | .ok result => .ok result

/-- The default header set precomputed by every constructor. -/
def defaultHeaders (api_key : String) : List (String × String) :=
  [("Content-Type", "application/json"), ("x-api-key", api_key)]

/-- Blocking client state: the three attributes assigned by the Python
constructor.  An absent (None) argument is identified with the empty
string, both being falsy under the not base_url test. -/
structure HPKVClient where
  base_url : String
  api_key : String
  headers : List (String × String)
  deriving BEq

/-- The HPKVClient constructor: ValueError when base_url or api_key is
falsy, otherwise the attributes are assigned with the precomputed headers.
The body is pure: no network request is issued. -/
def HPKVClient.make (base_url api_key : String) : Except String HPKVClient :=
  if base_url = "" then .error "base_url is required"
  else if api_key = "" then .error "api_key is required"
  else .ok ⟨base_url, api_key, defaultHeaders api_key⟩

/-- Whether construction fails with the configuration ValueError. -/
def makeFails (base_url api_key : String) : Bool :=
  match HPKVClient.make base_url api_key with
  | .error _ => true
  | .ok _ => false

/-- Non-blocking client state: the same three attributes plus the session
attribute, None at construction.  Sessions are identified by numbers drawn
from the nextId counter, a bookkeeping field of the model only. -/
structure AsyncHPKVClient where
  base_url : String
  api_key : String
  headers : List (String × String)
  session : Option Nat
  nextId : Nat
  deriving BEq

/-- The AsyncHPKVClient constructor: same validation as the blocking one,
plus self.session = None.  No session is created and no network request is
issued at construction time. -/
def AsyncHPKVClient.make (base_url api_key : String) :
    Except String AsyncHPKVClient :=
  if base_url = "" then .error "base_url is required"
  else if api_key = "" then .error "api_key is required"
  else .ok ⟨base_url, api_key, defaultHeaders api_key, none, 0⟩

/-- Whether the async construction fails with the configuration ValueError. -/
def asyncMakeFails (base_url api_key : String) : Bool :=
  match AsyncHPKVClient.make base_url api_key with
  | .error _ => true
  | .ok _ => false

/-- Upper-case hex digit, as used by urllib percent escapes. -/
def hexDigitUpper (n : Nat) : Char :=
  if n < 10 then Char.ofNat (48 + n) else Char.ofNat (55 + n)

/-- The UTF-8 bytes of one character, each given as a number below 256. -/
def utf8Bytes (c : Char) : List Nat :=
  let n := c.toNat
  if n < 128 then [n]
  else if n < 2048 then [192 + n / 64, 128 + n % 64]
  else if n < 65536 then [224 + n / 4096, 128 + (n / 64) % 64, 128 + n % 64]
  else [240 + n / 262144, 128 + (n / 4096) % 64, 128 + (n / 64) % 64,
    128 + n % 64]

/-- Bytes left untouched by urllib.parse.quote with the default safe set:
ASCII letters, digits, underscore, dot, hyphen, tilde, and the default safe
character, the slash. -/
def isQuoteSafe (n : Nat) : Bool :=
  decide ((65 ≤ n ∧ n ≤ 90) ∨ (97 ≤ n ∧ n ≤ 122) ∨ (48 ≤ n ∧ n ≤ 57) ∨
    n = 95 ∨ n = 46 ∨ n = 45 ∨ n = 126 ∨ n = 47)

/-- Percent escape of one byte, or the byte itself when safe. -/
def quoteByte (n : Nat) : String :=
  if isQuoteSafe n then String.singleton (Char.ofNat n)
  else "%" ++ String.singleton (hexDigitUpper (n / 16))
    ++ String.singleton (hexDigitUpper (n % 16))

/-- urllib.parse.quote with default arguments: encode the string as UTF-8
and percent-escape every unsafe byte. -/
def pyQuote (s : String) : String :=
  String.join ((s.toList.flatMap utf8Bytes).map quoteByte)

/-- Lower-case hex digit, as used by json.dumps unicode escapes. -/
def hexDigitLower (n : Nat) : Char :=
  if n < 10 then Char.ofNat (48 + n) else Char.ofNat (87 + n)

/-- Four lower-case hex digits of a number below 65536. -/
def toHex4 (n : Nat) : String :=
  String.mk [hexDigitLower ((n / 4096) % 16), hexDigitLower ((n / 256) % 16),
    hexDigitLower ((n / 16) % 16), hexDigitLower (n % 16)]

/-- String-character escaping of json.dumps with its default ensure_ascii:
quote and backslash get a backslash escape, common control characters get
their short forms, all other characters outside the printable ASCII range
get unicode escapes, with surrogate pairs above the basic plane. -/
def escapeChar (c : Char) : String :=
  let n := c.toNat
  if c = '"' then "\\\""
  else if c = '\\' then "\\\\"
  else if c = '\n' then "\\n"
  else if c = '\r' then "\\r"
  else if c = '\t' then "\\t"
  else if n = 8 then "\\b"
  else if n = 12 then "\\f"
  else if n < 32 then "\\u" ++ toHex4 n
  else if n < 127 then String.singleton c
  else if n < 65536 then "\\u" ++ toHex4 n
  else
    "\\u" ++ toHex4 (55296 + (n - 65536) / 1024)
      ++ "\\u" ++ toHex4 (56320 + (n - 65536) % 1024)

mutual

/-- json.dumps with default arguments, modelling the standard library
serializer the set/upsert path calls on non-string values. -/
def jsonEncode : Json → String
  | .null => "null"
  | .bool true => "true"
  | .bool false => "false"
  | .num n => toString n
  | .str s => "\"" ++ String.join (s.toList.map escapeChar) ++ "\""
  | .arr elems => "[" ++ jsonEncodeList elems ++ "]"
  | .obj fields => "\x7b" ++ jsonEncodeFields fields ++ "\x7d"

/-- Comma-separated encoding of array elements. -/
def jsonEncodeList : List Json → String
  | [] => ""
  | [x] => jsonEncode x
  | x :: y :: rest => jsonEncode x ++ ", " ++ jsonEncodeList (y :: rest)

/-- Comma-separated encoding of object members with the default ": "
key separator. -/
def jsonEncodeFields : List (String × Json) → String
  | [] => ""
  | [(k, v)] => "\"" ++ String.join (k.toList.map escapeChar) ++ "\": " ++ jsonEncode v
  | (k, v) :: m :: rest =>
    "\"" ++ String.join (k.toList.map escapeChar) ++ "\": " ++ jsonEncode v
      ++ ", " ++ jsonEncodeFields (m :: rest)

end

/-- A caller-supplied value at the set/upsert boundary: a Python str, or any
other JSON-serializable object. -/
inductive Value where
  | text (s : String)
  | structured (j : Json)
  deriving BEq

/-- The value conversion at the top of every set method: if the value is not
already a string it is replaced by json.dumps(value); a string passes
through unchanged. -/
def serializeValue : Value → String
  | .text s => s
  | .structured j => jsonEncode j

/-- HTTP method of a request handed to the transport library. -/
inductive HttpMethod where
  | get
  | post
  | delete
  deriving BEq, DecidableEq

/-- The request each operation hands to the transport collaborator: method,
url, headers, optional json body, and query parameters. -/
structure Request where
  method : HttpMethod
  url : String
  headers : List (String × String)
  jsonBody : Option Json
  params : List (String × String)
  deriving BEq

/-- Field of the json body of a request, when the body is an object. -/
def Request.bodyField (r : Request) (k : String) : Option Json :=
  match r.jsonBody with
  | some (.obj fields) => fields.lookup k
  | _ => none

/-- Request built by set: POST to base_url/record with the quoted key, the
serialized value and the partial-update flag in the json body. -/
def HPKVClient.setRequest (c : HPKVClient) (key : String) (value : Value)
    (pUpdate : Bool) : Request :=
  { method := .post
    url := c.base_url ++ "/record"
    headers := c.headers
    jsonBody := some (.obj [("key", .str (pyQuote key)),
      ("value", .str (serializeValue value)), ("partialUpdate", .bool pUpdate)])
    params := [] }

/-- Request built by get: GET with the quoted key embedded in the path. -/
def HPKVClient.getRequest (c : HPKVClient) (key : String) : Request :=
  { method := .get
    url := c.base_url ++ "/record/" ++ pyQuote key
    headers := c.headers
    jsonBody := none
    params := [] }

/-- Request built by delete: DELETE with the quoted key embedded in the
path. -/
def HPKVClient.deleteRequest (c : HPKVClient) (key : String) : Request :=
  { method := .delete
    url := c.base_url ++ "/record/" ++ pyQuote key
    headers := c.headers
    jsonBody := none
    params := [] }

/-- Request built by increment: POST to base_url/record/atomic with the
quoted key and the signed increment in the json body. -/
def HPKVClient.incrementRequest (c : HPKVClient) (key : String)
    (increment : Int) : Request :=
  { method := .post
    url := c.base_url ++ "/record/atomic"
    headers := c.headers
    jsonBody := some (.obj [("key", .str (pyQuote key)),
      ("increment", .num increment)])
    params := [] }

/-- Request built by query: GET to base_url/records with the quoted boundary
keys and the limit as query parameters. -/
def HPKVClient.queryRequest (c : HPKVClient) (start_key end_key : String)
    (limit : Int) : Request :=
  { method := .get
    url := c.base_url ++ "/records"
    headers := c.headers
    jsonBody := none
    params := [("startKey", pyQuote start_key), ("endKey", pyQuote end_key),
      ("limit", toString limit)] }

/-- Blocking set as a method on the instance: the outcome of the response
pipeline together with the instance state after the call.  The Python body
assigns no attribute of self, so the state is returned as received. -/
def HPKVClient.setCall (c : HPKVClient) (_key : String) (_value : Value)
    (_pUpdate : Bool) (r : SyncResponse) : OpOutcome × HPKVClient :=
  (setHandle r, c)

/-- Blocking get as a method on the instance; no attribute of self is
assigned. -/
def HPKVClient.getCall (c : HPKVClient) (_key : String) (r : SyncResponse) :
    OpOutcome × HPKVClient :=
  (getHandle r, c)

/-- Blocking delete as a method on the instance; no attribute of self is
assigned. -/
def HPKVClient.deleteCall (c : HPKVClient) (_key : String) (r : SyncResponse) :
    OpOutcome × HPKVClient :=
  (deleteHandle r, c)

/-- Blocking increment as a method on the instance; no attribute of self is
assigned. -/
def HPKVClient.incrementCall (c : HPKVClient) (_key : String)
    (_increment : Int) (r : SyncResponse) : OpOutcome × HPKVClient :=
  (incrementHandle r, c)

/-- Blocking query as a method on the instance; no attribute of self is
assigned. -/
def HPKVClient.queryCall (c : HPKVClient) (_start_key _end_key : String)
    (_limit : Int) (r : SyncResponse) : OpOutcome × HPKVClient :=
  (queryHandle r, c)

/-- _get_session: return self.session, creating and storing a new session
first when it is None. -/
def AsyncHPKVClient.getSession (c : AsyncHPKVClient) :
    Nat × AsyncHPKVClient :=
  match c.session with
  | some i => (i, c)
  | none => (c.nextId, { c with session := some c.nextId, nextId := c.nextId + 1 })

/-- Any of the five non-blocking operations as a method on the instance:
_get_session may assign self.session, then the shared response pipeline
runs; no other attribute is assigned. -/
def AsyncHPKVClient.opCall (c : AsyncHPKVClient) (r : AsyncResponse) :
    OpOutcome × AsyncHPKVClient :=
  ((asyncHandle r), (c.getSession).2)

/-- The aenter method: unconditionally assigns a fresh session to
self.session, without closing a session already stored there. -/
def AsyncHPKVClient.enterScope (c : AsyncHPKVClient) : AsyncHPKVClient :=
  { c with session := some c.nextId, nextId := c.nextId + 1 }

/-- The aexit method: awaits close() on the stored session when there is
one; no attribute of self is assigned, so the session field keeps pointing
at the closed session. -/
def AsyncHPKVClient.exitScope (c : AsyncHPKVClient) : AsyncHPKVClient :=
  c

/-- Session bookkeeping across a sequence of client events: the stored
session, the id counter, and the lists of sessions created and closed so
far, in order. -/
structure SessionState where
  session : Option Nat
  nextId : Nat
  created : List Nat
  closed : List Nat
  deriving BEq, DecidableEq

/-- Client events touching the session: an operation call (which runs
_get_session), entering the usage scope (aenter) and leaving it (aexit). -/
inductive AsyncEvent where
  | opCall
  | scopeEnter
  | scopeExit
  deriving BEq, DecidableEq

/-- One step of session bookkeeping, mirroring _get_session, the aenter
body self.session = aiohttp.ClientSession(), and the aexit body
if self.session: await self.session.close(). -/
def sessionStep (s : SessionState) : AsyncEvent → SessionState
  | .opCall =>
    match s.session with
    | some _ => s
    | none =>
      { session := some s.nextId, nextId := s.nextId + 1,
        created := s.created ++ [s.nextId], closed := s.closed }
  | .scopeEnter =>
    { session := some s.nextId, nextId := s.nextId + 1,
      created := s.created ++ [s.nextId], closed := s.closed }
  | .scopeExit =>
    match s.session with
    | some i => { s with closed := s.closed ++ [i] }
    | none => s

/-- Run a sequence of session events from a starting state. -/
def sessionRun (s : SessionState) : List AsyncEvent → SessionState
  | [] => s
  | e :: rest => sessionRun (sessionStep s e) rest

/-- State of a freshly constructed async client: no session, nothing
created, nothing closed. -/
def initialSessionState : SessionState :=
  ⟨none, 0, [], []⟩

/-- A status inside the 4xx or 5xx range is not ok for requests. -/
theorem requestsOk_false {s : Nat} (h1 : 400 ≤ s) (h2 : s < 600) :
    requestsOk s = false := by
  simp only [requestsOk, Bool.or_eq_false_iff, decide_eq_false_iff_not]
  omega

/-- On a failing status every typed SDK operation returns the outcome of
the shared error handler; the shape-validation branch is never consulted. -/
theorem typedHandle_failing (op : OpKind) (r : SyncResponse)
    (h1 : 400 ≤ r.status) (h2 : r.status < 600) :
    typedHandle op r = raiseClassified classifyTyped r.status (decodeBody r.body) := by
  cases op <;>
    simp [typedHandle, setHandle, getHandle, deleteHandle, incrementHandle,
      queryHandle, syncHandleErrors, requestsOk_false h1 h2]

/-- On a failing status the simple blocking pipeline returns the outcome of
the shared error handler. -/
theorem simpleHandle_failing (r : SyncResponse)
    (h1 : 400 ≤ r.status) (h2 : r.status < 600) :
    simpleHandle r = raiseClassified classifySimple r.status (decodeBody r.body) := by
  simp [simpleHandle, syncHandleErrors, requestsOk_false h1 h2]

/-- On a failing status the non-blocking pipeline returns the outcome of
the shared error handler over the content-length guarded body. -/
theorem asyncHandle_failing (r : AsyncResponse) (h : 400 ≤ r.status) :
    asyncHandle r = raiseClassified classifySimple r.status (asyncErrData r) := by
  simp [asyncHandle, h]

/-- When message derivation succeeds, the raised exception carries the
classified kind, the derived message, the status and the decoded body. -/
theorem raiseClassified_msg (cl : Nat → ErrKind) (status : Nat)
    (errData : Option Json) (m : Json) (h : deriveMsg status errData = .msg m) :
    raiseClassified cl status errData = .err ⟨cl status, m, status, errData⟩ := by
  simp [raiseClassified, h]

/-- Message derivation never crashes on a body that decodes to an object. -/
theorem deriveMsg_obj_isMsg (status : Nat) (fields : List (String × Json)) :
    (deriveMsg status (some (.obj fields))).isMsg = true := by
  cases hl : fields.lookup "error" with
  | none =>
    simp only [deriveMsg, Json.truthy, pyContains, hl, Option.isSome]
    split <;> simp [MsgRes.isMsg]
  | some v =>
    simp only [deriveMsg, Json.truthy, pyContains, pyIndex, hl, Option.isSome]
    split <;> simp [MsgRes.isMsg]

/-- Running a concatenation of event lists runs them in sequence. -/
theorem sessionRun_append (s : SessionState) (xs ys : List AsyncEvent) :
    sessionRun s (xs ++ ys) = sessionRun (sessionRun s xs) ys := by
  induction xs generalizing s with
  | nil => rfl
  | cons e rest ih => simp [sessionRun, ih]

/-- Operation calls leave the state untouched while a session is stored. -/
theorem sessionRun_opCalls (s : SessionState) (i : Nat)
    (h : s.session = some i) (n : Nat) :
    sessionRun s (List.replicate n .opCall) = s := by
  induction n with
  | zero => rfl
  | succ n ih => simpa [List.replicate, sessionRun, sessionStep, h] using ih

/-- C1 (amended): in the typed SDK client, for every failing-status response
whose error-message derivation succeeds, the raised exception variant is
determined solely by the status code, with 400 bad-request, 401
unauthorized, 403 forbidden, 404 not-found, 409 conflict, 429 rate-limited,
at least 500 internal and any other failing status generic; message
derivation always succeeds on absent, undecodable or object bodies, so a
404 with such a body always raises the not-found variant.  The simple
blocking and non-blocking clients instead raise their one generic exception
class for every failing status. -/
theorem c1_status_determines_variant :
    (∀ (op : OpKind) (r : SyncResponse) (m : Json), 400 ≤ r.status → r.status < 600 →
      deriveMsg r.status (decodeBody r.body) = .msg m →
      typedHandle op r = .err ⟨classifyTyped r.status, m, r.status, decodeBody r.body⟩)
    ∧ classifyTyped 400 = .badRequest
    ∧ classifyTyped 401 = .unauthorized
    ∧ classifyTyped 403 = .forbidden
    ∧ classifyTyped 404 = .notFound
    ∧ classifyTyped 409 = .conflict
    ∧ classifyTyped 429 = .rateLimited
    ∧ (∀ s : Nat, 500 ≤ s → classifyTyped s = .internal)
    ∧ (∀ s : Nat, 400 ≤ s → s < 500 → s ≠ 400 → s ≠ 401 → s ≠ 403 → s ≠ 404 →
        s ≠ 409 → s ≠ 429 → classifyTyped s = .generic)
    ∧ (∀ (status : Nat) (fields : List (String × Json)),
        (deriveMsg status (some (.obj fields))).isMsg = true)
    ∧ (∀ status : Nat, deriveMsg status none = .msg (genericMsg status))
    ∧ (∀ (r : SyncResponse) (m : Json), 400 ≤ r.status → r.status < 600 →
        deriveMsg r.status (decodeBody r.body) = .msg m →
        simpleHandle r = .err ⟨.generic, m, r.status, decodeBody r.body⟩)
    ∧ (∀ (r : AsyncResponse) (m : Json), 400 ≤ r.status →
        deriveMsg r.status (asyncErrData r) = .msg m →
        asyncHandle r = .err ⟨.generic, m, r.status, asyncErrData r⟩) := by
  refine ⟨?_, by decide, by decide, by decide, by decide, by decide, by decide,
    ?_, ?_, deriveMsg_obj_isMsg, fun status => rfl, ?_, ?_⟩
  · intro op r m h1 h2 hm
    rw [typedHandle_failing op r h1 h2, raiseClassified_msg _ _ _ _ hm]
  · intro s h
    simp only [classifyTyped]
    rw [if_neg (by omega), if_neg (by omega), if_neg (by omega), if_neg (by omega),
      if_neg (by omega), if_neg (by omega), if_pos (by omega)]
  · intro s h1 h2 e1 e2 e3 e4 e5 e6
    simp only [classifyTyped]
    rw [if_neg e1, if_neg e2, if_neg e3, if_neg e4, if_neg e5, if_neg e6,
      if_neg (by omega)]
  · intro r m h1 h2 hm
    rw [simpleHandle_failing r h1 h2, raiseClassified_msg _ _ _ _ hm]
    rfl
  · intro r m h1 hm
    rw [asyncHandle_failing r h1, raiseClassified_msg _ _ _ _ hm]
    rfl

/-- C1 witness: a 404 response with an object body carrying an error field
raises the not-found variant with that message in the typed SDK client. -/
theorem c1_witness :
    typedHandle .get ⟨404, .wellFormed (.obj [("error", .str "Record not found")])⟩
      = .err ⟨.notFound, .str "Record not found", 404,
          some (.obj [("error", .str "Record not found")])⟩ :=
  c1_status_determines_variant.1 OpKind.get
    ⟨404, .wellFormed (.obj [("error", .str "Record not found")])⟩
    (.str "Record not found") (by decide) (by decide) rfl

/-- C1 counterexample: in the non-blocking mode a 400 response raises the
single generic exception class, not a bad-request variant, so the claimed
status-to-variant mapping does not hold in either mode. -/
theorem c1_counterexample :
    asyncHandle ⟨400, some 2, .wellFormed (.obj [("error", .str "Bad request")])⟩
      = .err ⟨.generic, .str "Bad request", 400,
          some (.obj [("error", .str "Bad request")])⟩
    ∧ ErrKind.generic ≠ ErrKind.badRequest :=
  ⟨rfl, by decide⟩

/-- C2 (amended): in the typed SDK client, a success-status response whose
decoded body is not a JSON object containing all required fields of its
operation raises the internal-format variant carrying the raw decoded body
and the status code, and a well-shaped body is returned to the caller
unchanged; the simple blocking and non-blocking clients perform no shape
validation and return any decoded success-status body unchanged. -/
theorem c2_success_shape_validation :
    (∀ (op : OpKind) (status : Nat) (j : Json), requestsOk status = true →
      (requiredOk op j = true → typedHandle op ⟨status, .wellFormed j⟩ = .ok j)
      ∧ (requiredOk op j = false →
          typedHandle op ⟨status, .wellFormed j⟩ = .err (formatError status j)))
    ∧ (∀ (status : Nat) (j : Json), requestsOk status = true →
        simpleHandle ⟨status, .wellFormed j⟩ = .ok j)
    ∧ (∀ (status : Nat) (clen : Option Nat) (j : Json), status < 400 →
        asyncHandle ⟨status, clen, .wellFormed j⟩ = .ok j) := by
  refine ⟨?_, ?_, ?_⟩
  · intro op status j hok
    cases op <;>
      constructor <;> intro hreq <;>
      simp only [requiredOk] at hreq <;>
      cases hd : j.isDict <;>
      cases h1 : j.hasKey "success" <;>
      cases h2 : j.hasKey "key" <;>
      cases h3 : j.hasKey "value" <;>
      cases h4 : j.hasKey "result" <;>
      cases h5 : j.hasKey "records" <;>
      cases h6 : j.hasKey "count" <;>
      simp_all [typedHandle, setHandle, getHandle, deleteHandle, incrementHandle,
        queryHandle, syncHandleErrors, strictDecode, formatError]
  · intro status j hok
    simp [simpleHandle, syncHandleErrors, hok, strictDecode]
  · intro status clen j h
    simp [asyncHandle, Nat.not_le.mpr h, strictDecode]

/-- C2 witness: in the typed SDK client a well-shaped set response is
returned unchanged, and a 200 body missing the success field raises the
internal-format variant carrying body and status. -/
theorem c2_witness :
    typedHandle .set ⟨200, .wellFormed (.obj [("success", .bool true)])⟩
      = .ok (.obj [("success", .bool true)])
    ∧ typedHandle .set ⟨200, .wellFormed (.obj [("ok", .bool true)])⟩
      = .err (formatError 200 (.obj [("ok", .bool true)])) :=
  ⟨((c2_success_shape_validation.1 OpKind.set 200
      (.obj [("success", .bool true)]) (by decide)).1 (by decide)),
   ((c2_success_shape_validation.1 OpKind.set 200
      (.obj [("ok", .bool true)]) (by decide)).2 (by decide))⟩

/-- C2 counterexample: the simple blocking client returns a 200 set
response whose body lacks the required success field to the caller
unchanged instead of raising the internal-format variant. -/
theorem c2_counterexample :
    simpleHandle ⟨200, .wellFormed (.obj [])⟩ = .ok (.obj [])
    ∧ (simpleHandle ⟨200, .wellFormed (.obj [])⟩).isRaised = false :=
  ⟨rfl, rfl⟩

/-- C3 (amended): for every typed SDK operation and failing-status
response, the outcome is produced entirely by the shared error handler, so
it does not depend on the operation and a shape-validation error is never
raised there; whenever message derivation succeeds the raised exception is
the status-classified one carrying the derived message, the original
status and the originally decoded error body unchanged.  Bodies that trip
the message-derivation type error crash instead of raising any exception. -/
theorem c3_classification_precedes_validation :
    ∀ (op : OpKind) (r : SyncResponse), 400 ≤ r.status → r.status < 600 →
      (typedHandle op r = raiseClassified classifyTyped r.status (decodeBody r.body))
      ∧ (∀ op2 : OpKind, typedHandle op r = typedHandle op2 r)
      ∧ (∀ m : Json, deriveMsg r.status (decodeBody r.body) = .msg m →
          typedHandle op r = .err ⟨classifyTyped r.status, m, r.status, decodeBody r.body⟩) := by
  intro op r h1 h2
  refine ⟨typedHandle_failing op r h1 h2, ?_, ?_⟩
  · intro op2
    rw [typedHandle_failing op r h1 h2, typedHandle_failing op2 r h1 h2]
  · intro m hm
    rw [typedHandle_failing op r h1 h2, raiseClassified_msg _ _ _ _ hm]

/-- C3 witness: a 409 response with no body raises the conflict variant
through the error handler on the set operation. -/
theorem c3_witness :
    typedHandle .set ⟨409, .empty⟩
      = .err ⟨.conflict, .str "HTTP error 409", 409, none⟩ :=
  (c3_classification_precedes_validation OpKind.set ⟨409, .empty⟩
    (by decide) (by decide)).2.2 (.str "HTTP error 409") rfl

/-- C3 counterexample: a 400 response whose body decodes to the JSON string
error makes the typed SDK set crash with an uncaught TypeError, so no
status-classified exception carrying message, status and body is raised. -/
theorem c3_counterexample :
    setHandle ⟨400, .wellFormed (.str "error")⟩ = .typeError
    ∧ (setHandle ⟨400, .wellFormed (.str "error")⟩).isRaised = false :=
  ⟨rfl, rfl⟩

/-- C4: evaluation of the shared message derivation.  An object body with
an error field gives that field, an absent body gives the generic message,
an undecodable body is tolerated and gives the generic message with no
body carried; but a truthy non-object body passing the membership test for
error crashes with an uncaught TypeError instead of falling back to the
generic message, in both the blocking and the non-blocking client. -/
theorem c4_message_derivation :
    deriveMsg 400 (some (.obj [("error", .str "boom")])) = .msg (.str "boom")
    ∧ deriveMsg 400 none = .msg (.str "HTTP error 400")
    ∧ simpleHandle ⟨400, .garbled⟩
        = .err ⟨.generic, .str "HTTP error 400", 400, none⟩
    ∧ deriveMsg 400 (some (.str "error")) = .typeError
    ∧ simpleHandle ⟨400, .wellFormed (.str "error")⟩ = .typeError
    ∧ asyncHandle ⟨400, some 7, .wellFormed (.arr [.str "error"])⟩ = .typeError :=
  ⟨rfl, rfl, rfl, rfl, rfl, rfl⟩

/-- C5: in both modes the constructor raises the configuration ValueError
exactly when the base url or the api key is empty, and on any pair of
non-empty strings it succeeds, storing the arguments and precomputing
exactly the content-type and api-key headers; the constructor body is a
pure function of its arguments, so no network request is issued, and the
async constructor starts with no session. -/
theorem c5_constructor_validation :
    (∀ b k : String, makeFails b k = true ↔ (b = "" ∨ k = ""))
    ∧ (∀ b k : String, b ≠ "" → k ≠ "" →
        HPKVClient.make b k = .ok ⟨b, k, defaultHeaders k⟩)
    ∧ (∀ b k : String, asyncMakeFails b k = true ↔ (b = "" ∨ k = ""))
    ∧ (∀ b k : String, b ≠ "" → k ≠ "" →
        AsyncHPKVClient.make b k = .ok ⟨b, k, defaultHeaders k, none, 0⟩)
    ∧ (∀ k : String, defaultHeaders k
        = [("Content-Type", "application/json"), ("x-api-key", k)]) := by
  refine ⟨?_, ?_, ?_, ?_, fun k => rfl⟩ <;> intro b k <;>
    by_cases hb : b = "" <;> by_cases hk : k = "" <;>
    simp [makeFails, asyncMakeFails, HPKVClient.make, AsyncHPKVClient.make, hb, hk]

/-- C5 witness: a concrete construction with non-empty arguments succeeds
with exactly the two precomputed headers. -/
theorem c5_witness :
    HPKVClient.make "https://api.hpkv.io" "secret-key"
      = .ok ⟨"https://api.hpkv.io", "secret-key",
          [("Content-Type", "application/json"), ("x-api-key", "secret-key")]⟩ :=
  c5_constructor_validation.2.1 "https://api.hpkv.io" "secret-key"
    (by decide) (by decide)

/-- C6: the wire value of set/upsert is a pure function of the input value,
the identity on strings and json.dumps on everything else, and this is the
value field actually placed in the request body; hence the structured
number 42 and the literal string 42 collapse to the same wire value. -/
theorem c6_value_serialization :
    (∀ s : String, serializeValue (.text s) = s)
    ∧ (∀ j : Json, serializeValue (.structured j) = jsonEncode j)
    ∧ (∀ (c : HPKVClient) (key : String) (v : Value) (pu : Bool),
        (c.setRequest key v pu).bodyField "value" = some (.str (serializeValue v)))
    ∧ serializeValue (.structured (.num 42)) = "42"
    ∧ serializeValue (.structured (.num 42)) = serializeValue (.text "42") :=
  ⟨fun _ => rfl, fun _ => rfl, fun _ _ _ _ => rfl, rfl, rfl⟩

/-- C7: in every operation the transmitted key is the percent-encoding of
the caller-supplied key: in the json body for set and increment, in the
url path for get and delete, and in the query parameters (both boundary
keys) for query. -/
theorem c7_keys_percent_encoded :
    ∀ (c : HPKVClient) (key start_key end_key : String) (v : Value)
      (pu : Bool) (inc lim : Int),
      (c.setRequest key v pu).bodyField "key" = some (.str (pyQuote key))
      ∧ (c.getRequest key).url = c.base_url ++ "/record/" ++ pyQuote key
      ∧ (c.deleteRequest key).url = c.base_url ++ "/record/" ++ pyQuote key
      ∧ (c.incrementRequest key inc).bodyField "key" = some (.str (pyQuote key))
      ∧ (c.queryRequest start_key end_key lim).params.lookup "startKey"
          = some (pyQuote start_key)
      ∧ (c.queryRequest start_key end_key lim).params.lookup "endKey"
          = some (pyQuote end_key) := by
  intro c key start_key end_key v pu inc lim
  exact ⟨rfl, rfl, rfl, rfl, rfl, rfl⟩

/-- C8 (amended): an operation call lazily creates the session on first use
and reuses it afterwards; entering the usage scope always creates a fresh
session, replacing a stored one without closing it, and leaving the scope
closes the session stored at exit.  Hence a scope entered with no
pre-existing session closes exactly the session it created, whatever
operations run inside it. -/
theorem c8_session_lifecycle :
    (∀ (s : SessionState) (i : Nat), s.session = some i →
      sessionStep s .opCall = s)
    ∧ (∀ s : SessionState, s.session = none → sessionStep s .opCall =
        ⟨some s.nextId, s.nextId + 1, s.created ++ [s.nextId], s.closed⟩)
    ∧ (∀ s : SessionState, sessionStep s .scopeEnter =
        ⟨some s.nextId, s.nextId + 1, s.created ++ [s.nextId], s.closed⟩)
    ∧ (∀ (s : SessionState) (i : Nat), s.session = some i →
        sessionStep s .scopeExit = { s with closed := s.closed ++ [i] })
    ∧ (∀ (s : SessionState) (n : Nat), s.session = none →
        sessionRun s (.scopeEnter :: (List.replicate n .opCall ++ [.scopeExit])) =
          ⟨some s.nextId, s.nextId + 1, s.created ++ [s.nextId],
            s.closed ++ [s.nextId]⟩) := by
  refine ⟨?_, ?_, fun s => rfl, ?_, ?_⟩
  · intro s i h
    simp [sessionStep, h]
  · intro s h
    simp [sessionStep, h]
  · intro s i h
    simp [sessionStep, h]
  · intro s n h
    show sessionRun (sessionStep s .scopeEnter) (List.replicate n .opCall ++ [.scopeExit]) = _
    rw [sessionRun_append]
    rw [sessionRun_opCalls (sessionStep s .scopeEnter) s.nextId rfl n]
    rfl

/-- C8 witness: entering the scope on a fresh client, calling three
operations and leaving the scope creates exactly one session and closes
it. -/
theorem c8_witness :
    sessionRun initialSessionState
      (.scopeEnter :: (List.replicate 3 .opCall ++ [.scopeExit]))
      = ⟨some 0, 1, [0], [0]⟩ :=
  c8_session_lifecycle.2.2.2.2 initialSessionState 3 rfl

/-- C8 counterexample: an operation call before entering the scope lazily
creates session 0; entering the scope replaces it with session 1 without
closing it, and leaving the scope closes only session 1, so session 0 is
left unreleased after the scope exits. -/
theorem c8_counterexample :
    (sessionRun initialSessionState [.opCall, .scopeEnter, .scopeExit]).created = [0, 1]
    ∧ (sessionRun initialSessionState [.opCall, .scopeEnter, .scopeExit]).closed = [1]
    ∧ ((sessionRun initialSessionState [.opCall, .scopeEnter, .scopeExit]).created.filter
        fun i => !((sessionRun initialSessionState
          [.opCall, .scopeEnter, .scopeExit]).closed.contains i)) = [0] :=
  ⟨rfl, rfl, rfl⟩

/-- C9: the configuration is immutable after construction: every blocking
operation returns the instance state exactly as received, and every
non-blocking operation together with scope entry and exit leaves the base
url, the api key and the derived headers unchanged, touching at most the
session field. -/
theorem c9_config_immutable :
    (∀ (c : HPKVClient) (key : String) (v : Value) (pu : Bool) (r : SyncResponse),
      (c.setCall key v pu r).2 = c)
    ∧ (∀ (c : HPKVClient) (key : String) (r : SyncResponse), (c.getCall key r).2 = c)
    ∧ (∀ (c : HPKVClient) (key : String) (r : SyncResponse), (c.deleteCall key r).2 = c)
    ∧ (∀ (c : HPKVClient) (key : String) (inc : Int) (r : SyncResponse),
        (c.incrementCall key inc r).2 = c)
    ∧ (∀ (c : HPKVClient) (sk ek : String) (lim : Int) (r : SyncResponse),
        (c.queryCall sk ek lim r).2 = c)
    ∧ (∀ (ac : AsyncHPKVClient) (r : AsyncResponse),
        (ac.opCall r).2.base_url = ac.base_url
        ∧ (ac.opCall r).2.api_key = ac.api_key
        ∧ (ac.opCall r).2.headers = ac.headers)
    ∧ (∀ ac : AsyncHPKVClient, ac.enterScope.base_url = ac.base_url
        ∧ ac.enterScope.api_key = ac.api_key
        ∧ ac.enterScope.headers = ac.headers)
    ∧ (∀ ac : AsyncHPKVClient, ac.exitScope = ac) := by
  refine ⟨fun _ _ _ _ _ => rfl, fun _ _ _ => rfl, fun _ _ _ => rfl,
    fun _ _ _ _ => rfl, fun _ _ _ _ _ => rfl, ?_,
    fun ac => ⟨rfl, rfl, rfl⟩, fun ac => rfl⟩
  intro ac r
  cases h : ac.session <;>
    simp [AsyncHPKVClient.opCall, AsyncHPKVClient.getSession, h]

/-- C10: in the non-blocking client a failing response whose content length
is absent or zero raises the generic exception with the fallback message
and no decoded body, whatever the wire body holds. -/
theorem c10_content_length_guard :
    ∀ (status : Nat) (clen : Option Nat) (body : RawBody), 400 ≤ status →
      (clen = none ∨ clen = some 0) →
      asyncHandle ⟨status, clen, body⟩
        = .err ⟨.generic, genericMsg status, status, none⟩ := by
  intro status clen body h hc
  have hd : asyncErrData ⟨status, clen, body⟩ = none := by
    rcases hc with h1 | h1 <;> subst h1 <;> simp [asyncErrData]
  have := asyncHandle_failing ⟨status, clen, body⟩ h
  rw [this, hd]
  rfl

/-- C10 witness: a 404 response with unknown content length and a wire body
carrying an error field still raises the generic message with no body. -/
theorem c10_witness :
    asyncHandle ⟨404, none, .wellFormed (.obj [("error", .str "gone")])⟩
      = .err ⟨.generic, .str "HTTP error 404", 404, none⟩ :=
  c10_content_length_guard 404 none (.wellFormed (.obj [("error", .str "gone")]))
    (by decide) (Or.inl rfl)

end HPKV
